import Mathlib

/-!
# A verification model of `RightPanelStore`
  (src/src/components/structures/RightPanel.tsx, store half of the file)

The store tracks, per room/group id, a history stack of `{phase, state}`
cards plus an `isOpen` flag, in the JS object `byRoom`.  We embed the store
state as a Lean structure and each public mutator as a function on it.

Modelling conventions:
* JS `null`/`undefined` parameters and fields become `Option`.
* The JS object `byRoom` becomes an association list `List (String × _)`
  with lookup and in-place replacing insert (`bLookup` / `bInsert`); a key
  mapped to `undefined` is observationally identical to an absent key for
  every read in this file, so it is modelled as an absent key.
* Mutators that can throw a `TypeError` in JS (reading `.history` of an
  absent record in `popRightPanel` / `togglePanel` / the update branch of
  `setRightPanel`) return `Option RightPanelStoreState`, `none` = throw.
* `emitAndUpdateSettings` performs external effects only (settings write +
  `UPDATE_EVENT` emission); we count them in the fields `settingsWrites`
  and `emits` so claims about "no notification / no persistence" are
  statable.
* The initially-`undefined` fields `viewedRoomId` (a string) and
  `isViewingRoom` (a boolean) are modelled as `""` and `false`: every use
  in the source is a truthiness test or an equality with a non-empty
  string, for which this is observationally identical.
-/

/-- Association-list lookup for the JS object `byRoom` (string keys). -/
def bLookup {α : Type} : List (String × α) → String → Option α
  | [], _ => none
  | (k, v) :: t, key => if k = key then some v else bLookup t key

/-- Association-list write `obj[key] = v`: replace in place, else append. -/
def bInsert {α : Type} : List (String × α) → String → α → List (String × α)
  | [], key, v => [(key, v)]
  | (k, w) :: t, key, v =>
      if k = key then (k, v) :: t else (k, w) :: bInsert t key v

/-- Modelled from the spec: the phase enumeration `RightPanelPhases`
(`RightPanelStorePhases.ts` is not part of the excerpt). The enumerated
constructors are exactly the phases referenced by the source file; the
`unknown` constructor stands for any value outside the enumeration (the
reverse lookup `RightPanelPhases[targetPhase]` is falsy exactly there). -/
inductive RightPanelPhases : Type
  | RoomMemberList
  | SpaceMemberList
  | GroupMemberList
  | GroupRoomList
  | GroupRoomInfo
  | GroupMemberInfo
  | RoomMemberInfo
  | SpaceMemberInfo
  | EncryptionPanel
  | Room3pidMemberInfo
  | Space3pidMemberInfo
  | NotificationPanel
  | PinnedMessages
  | Timeline
  | FilePanel
  | ThreadView
  | ThreadPanel
  | RoomSummary
  | Widget
  | unknown (s : String)
deriving DecidableEq

/-- Modelled from the spec: the phase-specific payload (`IPanelState`,
declared in `RightPanelStoreIPanelState.ts`, not part of the excerpt).
The store treats it as opaque; we model the two fields the store itself
reads and writes (`member`, `verificationRequest`) plus an opaque rest. -/
structure IPanelState where
  member : Option String := none
  verificationRequest : Option Nat := none
  extra : List (String × String) := []
deriving DecidableEq

/-- One history card `{phase, state}`.  `phase` is `none` only in the
sentinel `{state: {}, phase: null}` returned by the getters; every card
stored in a history carries a real phase. `state` is `none` when the JS
code stored `null` there. -/
structure IPhaseAndState where
  phase : Option RightPanelPhases
  state : Option IPanelState
deriving DecidableEq

/-- Per-room record `IRightPanelForRoom`: history stack plus open flag. -/
structure IRightPanelForRoom where
  history : List IPhaseAndState
  isOpen : Bool
deriving DecidableEq

/-- The mutable state of the `RightPanelStore` singleton.  `emits` counts
`UPDATE_EVENT` emissions and `settingsWrites` counts `SettingsStore`
writes, so that "no notification / no persistence" claims are statable. -/
structure RightPanelStoreState where
  viewedRoomId : String
  isViewingRoom : Bool
  byRoom : List (String × IRightPanelForRoom)
  global : Option IRightPanelForRoom
  roomStoreToken : Bool
  emits : Nat
  settingsWrites : Nat
deriving DecidableEq

/-- Modelled from the spec: the external collaborators of the store —
the verification lookup `pendingVerificationRequestForUser`, the client's
room lookup used by `loadCacheFromSettings`, and the persisted settings
values (deserialization by `convertToStateRoom` is treated as opaque). -/
structure StoreEnv where
  pendingVerificationRequestForUser : Option String → Option Nat
  clientHasRoom : String → Bool
  settingsGlobal : Option IRightPanelForRoom
  settingsRoom : String → Option IRightPanelForRoom

/-- `GROUP_PHASES` constant of the source. -/
def GROUP_PHASES : List RightPanelPhases :=
  [.GroupMemberList, .GroupRoomList, .GroupRoomInfo, .GroupMemberInfo]

/-- `MEMBER_INFO_PHASES` constant of the source. -/
def MEMBER_INFO_PHASES : List RightPanelPhases :=
  [.RoomMemberInfo, .Room3pidMemberInfo, .EncryptionPanel]

/-- Truthiness of the reverse enum lookup `RightPanelPhases[targetPhase]`:
truthy exactly on the enumerated phases. -/
def RightPanelPhasesHas : RightPanelPhases → Bool
  | .unknown _ => false
  | _ => true

/-- The sentinel `{ state: {}, phase: null }` returned by the getters. -/
def emptyPanel : IPhaseAndState :=
  { phase := none, state := some {} }

/-- Getter `roomPhaseHistory`: `this.byRoom[this.viewedRoomId]?.history ?? []`. -/
def roomPhaseHistory (st : RightPanelStoreState) : List IPhaseAndState :=
  match bLookup st.byRoom st.viewedRoomId with
  | some roomCache => roomCache.history
  | none => []

/-- Getter `currentPanel`: last history element of the viewed room, or the
sentinel. -/
def currentPanel (st : RightPanelStoreState) : IPhaseAndState :=
  match (roomPhaseHistory st).getLast? with
  | some e => e
  | none => emptyPanel

/-- `currentPanelForRoom(roomId)`: last history element of that room's
record, falling back to `currentPanel` (the source's `?? {state:{},
phase:null}` is dead code since `currentPanel` is never nullish). -/
def currentPanelForRoom (st : RightPanelStoreState) (roomId : String) :
    IPhaseAndState :=
  let hist : List IPhaseAndState :=
    match bLookup st.byRoom roomId with
    | some roomCache => roomCache.history
    | none => []
  match hist.getLast? with
  | some e => e
  | none => currentPanel st

/-- `emitAndUpdateSettings`: persists the global record (always) and the
viewed room's record (only when `viewedRoomId` is truthy), then emits one
`UPDATE_EVENT`.  Modelled as effect counters; the in-memory state is
otherwise untouched. -/
def emitAndUpdateSettings (st : RightPanelStoreState) : RightPanelStoreState :=
  { st with
    settingsWrites := st.settingsWrites + (if st.viewedRoomId ≠ "" then 2 else 1),
    emits := st.emits + 1 }

/-- `setRightPanelCache(targetPhase, panelState)`: overwrite the history of
the *viewed* room (note: not a caller-supplied room id) with a single card,
open the panel, persist and notify. -/
def setRightPanelCache (st : RightPanelStoreState)
    (targetPhase : RightPanelPhases) (panelState : Option IPanelState) :
    RightPanelStoreState :=
  emitAndUpdateSettings
    { st with
      byRoom := bInsert st.byRoom st.viewedRoomId
        { history := [{ phase := some targetPhase, state := some (panelState.getD {}) }],
          isOpen := true } }

/-- `getVerificationRedirect({phase, state})`: when member info is
requested with a truthy state and the member has a pending verification
request, redirect to the encryption panel carrying a fresh
`{verificationRequest, member}` state; otherwise `null`. -/
def getVerificationRedirect (env : StoreEnv) (phase : RightPanelPhases)
    (state : Option IPanelState) : Option (RightPanelPhases × IPanelState) :=
  match phase, state with
  | .RoomMemberInfo, some s =>
    match env.pendingVerificationRequestForUser s.member with
    | some pendingRequest =>
        some (.EncryptionPanel,
          { member := s.member, verificationRequest := some pendingRequest })
    | none => none
  | _, _ => none

/-- The `redirect?.phase ?? phase` / `redirect?.state ?? state` resolution
that begins both `setRightPanel` and `pushRightPanel`. -/
def resolveTarget (env : StoreEnv) (phase : RightPanelPhases)
    (state : Option IPanelState) : RightPanelPhases × Option IPanelState :=
  match getVerificationRedirect env phase state with
  | some (tp, ts) => (tp, some ts)
  | none => (phase, state)

/-- `isPhaseActionIsValid(targetPhase)`: a known phase whose family (group
vs room) matches the current viewing mode. -/
def isPhaseActionIsValid (st : RightPanelStoreState)
    (targetPhase : RightPanelPhases) : Bool :=
  if !RightPanelPhasesHas targetPhase then false
  else if GROUP_PHASES.contains targetPhase && st.isViewingRoom then false
  else if !GROUP_PHASES.contains targetPhase && !st.isViewingRoom then false
  else true

/-- `togglePanel(roomId)`: flip `isOpen` of the target record, persist and
notify.  Throws (`none`) when the record is absent, as the source reads
`this.byRoom[rId].isOpen` unguarded. -/
def togglePanel (st : RightPanelStoreState) (roomId : Option String) :
    Option RightPanelStoreState :=
  let rId := roomId.getD st.viewedRoomId
  match bLookup st.byRoom rId with
  | none => none
  | some roomCache =>
      let newMap := bInsert st.byRoom rId ({ roomCache with isOpen := !roomCache.isOpen })
      some (emitAndUpdateSettings { st with byRoom := newMap })

/-- `popRightPanel(roomId)`: `roomCache.history.pop()` — drops the last
entry unconditionally (also from a singleton history), persists and
notifies.  Throws (`none`) when the record is absent. -/
def popRightPanel (st : RightPanelStoreState) (roomId : Option String) :
    Option RightPanelStoreState :=
  let rId := roomId.getD st.viewedRoomId
  match bLookup st.byRoom rId with
  | none => none
  | some roomCache =>
      let newMap := bInsert st.byRoom rId ({ roomCache with history := roomCache.history.dropLast })
      some (emitAndUpdateSettings { st with byRoom := newMap })

/-- `pushRightPanel(phase, panelState, allowClose, roomId)`.  When a record
exists, append a card and set `isOpen := allowClose ? isOpen : true`.  When
no record exists the source builds the replacement record in the local
variable `roomCache` and never writes it back into `byRoom`, so the map is
left unchanged; `emitAndUpdateSettings` still runs in both branches. -/
def pushRightPanel (env : StoreEnv) (st : RightPanelStoreState)
    (phase : RightPanelPhases) (panelState : Option IPanelState)
    (allowClose : Bool) (roomId : Option String) : RightPanelStoreState :=
  let rId := roomId.getD st.viewedRoomId
  let tp := (resolveTarget env phase panelState).1
  let ps := (resolveTarget env phase panelState).2
  if !isPhaseActionIsValid st tp then st
  else
    match bLookup st.byRoom rId with
    | some roomCache =>
        let newRecord : IRightPanelForRoom :=
          { history := roomCache.history ++ [{ phase := some tp, state := ps }],
            isOpen := if allowClose then roomCache.isOpen else true }
        emitAndUpdateSettings { st with byRoom := bInsert st.byRoom rId newRecord }
    | none => emitAndUpdateSettings st

/-- `hist[hist.length - 1].state = panelState` on a non-empty `hist`:
replace the state of the last entry, keeping its phase. -/
def setLastState : List IPhaseAndState → Option IPanelState → List IPhaseAndState
  | [], _ => []
  | [e], s => [{ phase := e.phase, state := s }]
  | e :: e₁ :: t, s => e :: setLastState (e₁ :: t) s

/-- `setRightPanel(phase, state, allowClose, roomId)`: redirect-resolve,
validity-check, then toggle / in-place update / hard reset by precedence.
The update branch reads `this.byRoom[rId].history` and its last element
unguarded, so it throws (`none`) when the record is absent or empty. -/
def setRightPanel (env : StoreEnv) (st : RightPanelStoreState)
    (phase : RightPanelPhases) (state : Option IPanelState)
    (allowClose : Bool) (roomId : Option String) :
    Option RightPanelStoreState :=
  let rId := roomId.getD st.viewedRoomId
  let tp := (resolveTarget env phase state).1
  let ps := (resolveTarget env phase state).2
  if !isPhaseActionIsValid st tp then some st
  else if (currentPanel st).phase = some tp ∧ allowClose = true ∧ ps = none then
    togglePanel st (some rId)
  else if (currentPanelForRoom st rId).phase = some tp ∧ ps ≠ none then
    match bLookup st.byRoom rId with
    | none => none
    | some roomCache =>
        if roomCache.history = [] then none
        else
          let newMap := bInsert st.byRoom rId
            ({ roomCache with history := setLastState roomCache.history ps })
          some (emitAndUpdateSettings { st with byRoom := newMap })
  else if (currentPanel st).phase ≠ some tp then
    some (setRightPanelCache st tp ps)
  else some st

/-- `loadCacheFromSettings`: when the client knows the viewed room, fill
`global` and the viewed room's record from persisted settings unless
already present in memory. -/
def loadCacheFromSettings (env : StoreEnv) (st : RightPanelStoreState) :
    RightPanelStoreState :=
  if env.clientHasRoom st.viewedRoomId then
    let st₁ := { st with global := st.global.orElse (fun _ => env.settingsGlobal) }
    match bLookup st₁.byRoom st₁.viewedRoomId with
    | some _ => st₁
    | none =>
        match env.settingsRoom st₁.viewedRoomId with
        | some roomCache =>
            { st₁ with byRoom := bInsert st₁.byRoom st₁.viewedRoomId roomCache }
        | none => st₁
  else st

/-- The dispatcher actions the store reacts to (`Action.ViewRoom`,
`'view_group'`); anything else falls through the `switch`. -/
inductive DispatchAction : Type
  | ViewRoom
  | view_group
  | other (s : String)
deriving DecidableEq

/-- The `{action, room_id}` payload fields read by `onDispatch`. -/
structure ActionPayload where
  action : DispatchAction
  room_id : String
deriving DecidableEq

/-- `onDispatch(payload)`: on a room/group navigation to a different id,
first apply the cross-mode phase coercion (member-info family ↦
`RoomMemberList` when entering room mode; `GroupMemberInfo` ↦
`GroupMemberList` when entering group mode), then update `viewedRoomId`
and `isViewingRoom`, then reload from settings only when `roomStoreToken`
is set (it never is in this source: the listener that would set it is
commented out). -/
def onDispatch (env : StoreEnv) (st : RightPanelStoreState)
    (payload : ActionPayload) : RightPanelStoreState :=
  match payload.action with
  | .other _ => st
  | _ =>
    if payload.room_id = st.viewedRoomId then st
    else
      let st₁ :=
        if (if st.isViewingRoom then DispatchAction.ViewRoom else DispatchAction.view_group)
            ≠ payload.action then
          if payload.action = DispatchAction.ViewRoom ∧
              (match (currentPanel st).phase with
               | some p => MEMBER_INFO_PHASES.contains p
               | none => false) = true then
            setRightPanelCache st .RoomMemberList (some {})
          else if payload.action = DispatchAction.view_group ∧
              (currentPanel st).phase = some .GroupMemberInfo then
            setRightPanelCache st .GroupMemberList (some {})
          else st
        else st
      let st₂ := { st₁ with
        viewedRoomId := payload.room_id,
        isViewingRoom := payload.action == DispatchAction.ViewRoom }
      if st₂.roomStoreToken then emitAndUpdateSettings (loadCacheFromSettings env st₂)
      else st₂

/-- The store state right after construction: empty map, no global record,
`viewedRoomId`/`isViewingRoom` still unset, no effects performed. -/
def initialStoreState : RightPanelStoreState :=
  { viewedRoomId := ""
    isViewingRoom := false
    byRoom := []
    global := none
    roomStoreToken := false
    emits := 0
    settingsWrites := 0 }

/-- One public mutator call, the data of §4's mutator interface. -/
inductive StoreCall : Type
  | set (phase : RightPanelPhases) (state : Option IPanelState)
      (allowClose : Bool) (roomId : Option String)
  | push (phase : RightPanelPhases) (state : Option IPanelState)
      (allowClose : Bool) (roomId : Option String)
  | pop (roomId : Option String)
  | toggle (roomId : Option String)

/-- Run one mutator call; `none` models a thrown `TypeError`. -/
def runCall (env : StoreEnv) (st : RightPanelStoreState) :
    StoreCall → Option RightPanelStoreState
  | .set phase state allowClose roomId => setRightPanel env st phase state allowClose roomId
  | .push phase state allowClose roomId => some (pushRightPanel env st phase state allowClose roomId)
  | .pop roomId => popRightPanel st roomId
  | .toggle roomId => togglePanel st roomId

/-- Run a sequence of mutator calls, stopping at the first throw. -/
def runCalls (env : StoreEnv) (st : RightPanelStoreState) :
    List StoreCall → Option RightPanelStoreState
  | [] => some st
  | c :: cs =>
    match runCall env st c with
    | some st' => runCalls env st' cs
    | none => none

/-- `true` iff the sequence contains no `popRightPanel` call. -/
def noPop : List StoreCall → Bool
  | [] => true
  | .pop _ :: _ => false
  | _ :: cs => noPop cs

/-- Every record present in `byRoom` has a non-empty history. -/
def recordsNonEmptyB (st : RightPanelStoreState) : Bool :=
  st.byRoom.all (fun p => !p.2.history.isEmpty)

/-- Collaborators with no pending verification requests, no client rooms
and no persisted settings. -/
def env0 : StoreEnv :=
  { pendingVerificationRequestForUser := fun _ => none
    clientHasRoom := fun _ => false
    settingsGlobal := none
    settingsRoom := fun _ => none }

/-- Same collaborators, except member `"alice"` has the pending
verification request `7`. -/
def env1 : StoreEnv :=
  { env0 with
    pendingVerificationRequestForUser :=
      fun m => if m = some "alice" then some 7 else none }

/-- A fresh store that has navigated to room `"roomA"` (room mode), with
no panel record yet. -/
def stA : RightPanelStoreState :=
  onDispatch env0 initialStoreState { action := .ViewRoom, room_id := "roomA" }

/-- Mutator run for the C2 counterexample: create the record for
`"roomA"` by a hard reset, then pop its only entry. -/
def c2run : Option RightPanelStoreState :=
  (setRightPanel env0 stA .RoomSummary none true none).bind
    (fun s => popRightPanel s none)

/-- Mutator run for the C3 counterexample: create a record for `"roomB"`,
navigate to `"roomA"`, then hard-reset targeting `"roomB"` explicitly. -/
def c3run : Option RightPanelStoreState :=
  ((setRightPanel env0
      (onDispatch env0 initialStoreState { action := .ViewRoom, room_id := "roomB" })
      .RoomSummary none true none).map
    (fun s => onDispatch env0 s { action := .ViewRoom, room_id := "roomA" })).bind
    (fun s => setRightPanel env0 s .FilePanel none true (some "roomB"))

/-- Mutator run for the C4 counterexample: in room `"roomA"` show member
info for `"alice"`, then switch to group `"groupB"`. -/
def c4run : Option RightPanelStoreState :=
  (setRightPanel env0 stA .RoomMemberInfo (some { member := some "alice" }) true none).map
    (fun s => onDispatch env0 s { action := .view_group, room_id := "groupB" })

/-- The C5 counterexample run: push member info for `"alice"` (who has a
pending verification request in `env1`) on a fresh conversation. -/
def c5run : RightPanelStoreState :=
  pushRightPanel env1 stA .RoomMemberInfo (some { member := some "alice" }) true none

/-- The redirected state `{verificationRequest, member}` built by
`getVerificationRedirect`. -/
def redirectedState (M : String) (R : Nat) : IPanelState :=
  { member := some M, verificationRequest := some R }

/-- The state produced by a successful `togglePanel` on record `roomCache`
at key `rId`. -/
def toggleResult (st : RightPanelStoreState) (rId : String)
    (roomCache : IRightPanelForRoom) : RightPanelStoreState :=
  let newMap := bInsert st.byRoom rId ({ roomCache with isOpen := !roomCache.isOpen })
  emitAndUpdateSettings { st with byRoom := newMap }

/-- The state produced by a successful `popRightPanel` on record
`roomCache` at key `rId`. -/
def popResult (st : RightPanelStoreState) (rId : String)
    (roomCache : IRightPanelForRoom) : RightPanelStoreState :=
  let newMap := bInsert st.byRoom rId ({ roomCache with history := roomCache.history.dropLast })
  emitAndUpdateSettings { st with byRoom := newMap }

/-- The state produced by `pushRightPanel` appending to record `roomCache`
at key `rId`. -/
def pushResult (st : RightPanelStoreState) (rId : String)
    (roomCache : IRightPanelForRoom) (tp : RightPanelPhases)
    (ps : Option IPanelState) (allowClose : Bool) : RightPanelStoreState :=
  let newRecord : IRightPanelForRoom :=
    { history := roomCache.history ++ [{ phase := some tp, state := ps }],
      isOpen := if allowClose then roomCache.isOpen else true }
  emitAndUpdateSettings { st with byRoom := bInsert st.byRoom rId newRecord }

/-- The state produced by the in-place-update branch of `setRightPanel`. -/
def updateResult (st : RightPanelStoreState) (rId : String)
    (roomCache : IRightPanelForRoom) (ps : Option IPanelState) :
    RightPanelStoreState :=
  let newMap := bInsert st.byRoom rId
    ({ roomCache with history := setLastState roomCache.history ps })
  emitAndUpdateSettings { st with byRoom := newMap }

/-! ## Association-list lemmas -/

theorem bLookup_bInsert_self {α : Type} (l : List (String × α)) (k : String) (v : α) :
    bLookup (bInsert l k v) k = some v := by
  induction l with
  | nil => simp [bInsert, bLookup]
  | cons p t ih =>
    obtain ⟨k', w⟩ := p
    by_cases hk : k' = k
    · simp [bInsert, bLookup, hk]
    · simp [bInsert, bLookup, hk, ih]

theorem bLookup_bInsert_ne {α : Type} (l : List (String × α)) (k k' : String) (v : α)
    (h : k' ≠ k) : bLookup (bInsert l k v) k' = bLookup l k' := by
  induction l with
  | nil =>
    simp [bInsert, bLookup]
    exact fun hk => absurd hk.symm h
  | cons p t ih =>
    obtain ⟨k₀, w⟩ := p
    by_cases hk : k₀ = k
    · subst hk
      have : ¬(k₀ = k') := fun hh => h (hh.symm)
      simp [bInsert, bLookup, this]
    · simp [bInsert, bLookup, hk, ih]

theorem bInsert_bInsert {α : Type} (l : List (String × α)) (k : String) (v w : α) :
    bInsert (bInsert l k v) k w = bInsert l k w := by
  induction l with
  | nil => simp [bInsert]
  | cons p t ih =>
    obtain ⟨k₀, u⟩ := p
    by_cases hk : k₀ = k
    · simp [bInsert, hk]
    · simp [bInsert, hk, ih]

theorem bInsert_eq_of_lookup {α : Type} (l : List (String × α)) (k : String) (v : α)
    (h : bLookup l k = some v) : bInsert l k v = l := by
  induction l with
  | nil => simp [bLookup] at h
  | cons p t ih =>
    obtain ⟨k₀, u⟩ := p
    by_cases hk : k₀ = k
    · subst hk
      simp [bLookup] at h
      simp [bInsert, h]
    · simp [bLookup, hk] at h
      simp [bInsert, hk, ih h]

theorem all_bInsert {α : Type} (p : String × α → Bool) (l : List (String × α))
    (k : String) (v : α) (hl : l.all p = true) (hv : p (k, v) = true) :
    (bInsert l k v).all p = true := by
  induction l with
  | nil =>
    show ([(k, v)].all p) = true
    rw [List.all_cons, List.all_nil, Bool.and_eq_true]
    exact ⟨hv, rfl⟩
  | cons q t ih =>
    obtain ⟨k₀, u⟩ := q
    rw [List.all_cons, Bool.and_eq_true] at hl
    by_cases hk : k₀ = k
    · rw [show bInsert ((k₀, u) :: t) k v = (k₀, v) :: t by simp [bInsert, hk]]
      rw [List.all_cons, Bool.and_eq_true]
      exact ⟨hk ▸ hv, hl.2⟩
    · rw [show bInsert ((k₀, u) :: t) k v = (k₀, u) :: bInsert t k v by
        simp [bInsert, hk]]
      rw [List.all_cons, Bool.and_eq_true]
      exact ⟨hl.1, ih hl.2⟩

theorem all_of_bLookup {α : Type} (p : String × α → Bool) (l : List (String × α))
    (k : String) (v : α) (hl : l.all p = true) (hk : bLookup l k = some v) :
    p (k, v) = true := by
  induction l with
  | nil => simp [bLookup] at hk
  | cons q t ih =>
    obtain ⟨k₀, u⟩ := q
    rw [List.all_cons, Bool.and_eq_true] at hl
    by_cases h : k₀ = k
    · rw [show bLookup ((k₀, u) :: t) k = some u by simp [bLookup, h]] at hk
      cases hk
      exact h ▸ hl.1
    · rw [show bLookup ((k₀, u) :: t) k = bLookup t k by simp [bLookup, h]] at hk
      exact ih hl.2 hk

/-! ## Small store lemmas -/

theorem emit_byRoom (st : RightPanelStoreState) :
    (emitAndUpdateSettings st).byRoom = st.byRoom := rfl

theorem emit_viewedRoomId (st : RightPanelStoreState) :
    (emitAndUpdateSettings st).viewedRoomId = st.viewedRoomId := rfl

theorem setLastState_concat :
    ∀ (h : List IPhaseAndState) (e : IPhaseAndState) (s : Option IPanelState),
      setLastState (h ++ [e]) s = h ++ [{ phase := e.phase, state := s }]
  | [], _, _ => rfl
  | a :: t, e, s => by
    have ih := setLastState_concat t e s
    cases t with
    | nil => simp [setLastState]
    | cons b t' =>
      simp only [List.cons_append] at ih ⊢
      simp [setLastState, ih]

theorem currentPanel_congr (st st' : RightPanelStoreState)
    (hb : bLookup st'.byRoom st'.viewedRoomId = bLookup st.byRoom st.viewedRoomId) :
    currentPanel st' = currentPanel st := by
  unfold currentPanel roomPhaseHistory
  rw [hb]

theorem currentPanelForRoom_viewed (st : RightPanelStoreState) :
    currentPanelForRoom st st.viewedRoomId = currentPanel st := by
  unfold currentPanelForRoom currentPanel roomPhaseHistory
  cases hb : bLookup st.byRoom st.viewedRoomId with
  | none => simp
  | some rc => cases hl : rc.history.getLast? <;> simp [hl]

/-! ## Claim theorems -/

/-- C1: on a fresh conversation (`"roomA"` has no record in `byRoom`), a
valid `pushRightPanel` call creates no record at all: the new record is
built in a local variable and never written back, so `byRoom` stays empty,
the history does not grow, and `currentPanel` stays the null sentinel —
while the call still emits one `UPDATE_EVENT`. -/
theorem c1_pushRightPanel_fresh_record_dropped :
    isPhaseActionIsValid stA .RoomSummary = true ∧
    (pushRightPanel env0 stA .RoomSummary none true none).byRoom = [] ∧
    currentPanel (pushRightPanel env0 stA .RoomSummary none true none) = emptyPanel ∧
    (pushRightPanel env0 stA .RoomSummary none true none).emits = 1 := by
  decide

/-- C2 counterexample: starting from a fresh store, a hard reset creates
the record for `"roomA"` with a one-entry history, and a single
`popRightPanel` then leaves that record present with an *empty* history —
refuting "a record's history is never empty once created". -/
theorem c2_pop_empties_history_counterexample :
    c2run.map (fun s => bLookup s.byRoom "roomA") =
      some (some { history := [], isOpen := true }) := by
  decide

/-- C3 counterexample: with `"roomA"` viewed, the hard-reset branch of
`setRightPanel(FilePanel, conversationId := "roomB")` leaves the target
conversation `"roomB"` completely untouched and instead replaces the
history of the viewed conversation `"roomA"` — refuting "the record of
the target conversation r (not some other conversation) has its entire
history replaced". -/
theorem c3_hard_reset_wrong_room_counterexample :
    c3run.map (fun s => (bLookup s.byRoom "roomB", bLookup s.byRoom "roomA")) =
      some
        (some { history := [{ phase := some .RoomSummary, state := some {} }],
                isOpen := true },
         some { history := [{ phase := some .FilePanel, state := some {} }],
                isOpen := true }) := by
  decide

/-- C4 counterexample: switching from conversation `"roomA"` (room mode,
current phase `RoomMemberInfo`) to `"groupB"` (group mode) performs *no*
phase coercion: `"roomA"`'s stored top phase is still `RoomMemberInfo`
after the switch commits — refuting "A's stored top phase is coerced to
`RoomMemberList` ... before the switch commits". -/
theorem c4_room_to_group_no_coercion_counterexample :
    c4run.map (fun s => (bLookup s.byRoom "roomA", s.viewedRoomId, s.isViewingRoom)) =
      some
        (some { history := [{ phase := some .RoomMemberInfo,
                              state := some { member := some "alice" } }],
                isOpen := true },
         "groupB", false) := by
  decide

/-- C5 counterexample: `"alice"` has a pending verification request in
`env1`, yet `pushRightPanel(RoomMemberInfo, {member: "alice"})` on a fresh
conversation leaves the store without any record, and the resulting
`currentPanel` is the null sentinel rather than the `EncryptionPanel`
entry the claim requires. -/
theorem c5_push_fresh_no_redirect_counterexample :
    env1.pendingVerificationRequestForUser (some "alice") = some 7 ∧
    c5run.byRoom = [] ∧
    currentPanel c5run = emptyPanel := by
  decide


/-! ## Mutator equation lemmas -/

theorem togglePanel_eq (st : RightPanelStoreState) (roomId : Option String)
    (roomCache : IRightPanelForRoom)
    (hlook : bLookup st.byRoom (roomId.getD st.viewedRoomId) = some roomCache) :
    togglePanel st roomId =
      some (toggleResult st (roomId.getD st.viewedRoomId) roomCache) := by
  unfold togglePanel toggleResult
  simp only [hlook]

theorem popRightPanel_eq (st : RightPanelStoreState) (roomId : Option String)
    (roomCache : IRightPanelForRoom)
    (hlook : bLookup st.byRoom (roomId.getD st.viewedRoomId) = some roomCache) :
    popRightPanel st roomId =
      some (popResult st (roomId.getD st.viewedRoomId) roomCache) := by
  unfold popRightPanel popResult
  simp only [hlook]

theorem pushRightPanel_eq (env : StoreEnv) (st : RightPanelStoreState)
    (phase : RightPanelPhases) (state : Option IPanelState) (allowClose : Bool)
    (roomId : Option String) (roomCache : IRightPanelForRoom)
    (hval : isPhaseActionIsValid st (resolveTarget env phase state).1 = true)
    (hlook : bLookup st.byRoom (roomId.getD st.viewedRoomId) = some roomCache) :
    pushRightPanel env st phase state allowClose roomId =
      pushResult st (roomId.getD st.viewedRoomId) roomCache
        (resolveTarget env phase state).1 (resolveTarget env phase state).2
        allowClose := by
  unfold pushRightPanel pushResult
  simp only [hval, hlook, Bool.not_true, Bool.false_eq_true, if_false]

theorem toggleResult_viewedRoomId (st : RightPanelStoreState) (rId : String)
    (roomCache : IRightPanelForRoom) :
    (toggleResult st rId roomCache).viewedRoomId = st.viewedRoomId := rfl

theorem toggleResult_byRoom (st : RightPanelStoreState) (rId : String)
    (roomCache : IRightPanelForRoom) :
    (toggleResult st rId roomCache).byRoom =
      bInsert st.byRoom rId ({ roomCache with isOpen := !roomCache.isOpen }) := rfl

theorem popResult_viewedRoomId (st : RightPanelStoreState) (rId : String)
    (roomCache : IRightPanelForRoom) :
    (popResult st rId roomCache).viewedRoomId = st.viewedRoomId := rfl

theorem popResult_byRoom (st : RightPanelStoreState) (rId : String)
    (roomCache : IRightPanelForRoom) :
    (popResult st rId roomCache).byRoom =
      bInsert st.byRoom rId ({ roomCache with history := roomCache.history.dropLast }) := rfl

theorem pushResult_viewedRoomId (st : RightPanelStoreState) (rId : String)
    (roomCache : IRightPanelForRoom) (tp : RightPanelPhases)
    (ps : Option IPanelState) (allowClose : Bool) :
    (pushResult st rId roomCache tp ps allowClose).viewedRoomId = st.viewedRoomId := rfl

theorem pushResult_byRoom (st : RightPanelStoreState) (rId : String)
    (roomCache : IRightPanelForRoom) (tp : RightPanelPhases)
    (ps : Option IPanelState) (allowClose : Bool) :
    (pushResult st rId roomCache tp ps allowClose).byRoom =
      bInsert st.byRoom rId
        { history := roomCache.history ++ [{ phase := some tp, state := ps }],
          isOpen := if allowClose then roomCache.isOpen else true } := rfl

/-- C6: a `setRightPanel` or `pushRightPanel` call whose redirect-resolved
target phase is unknown, or is a group phase while viewing a room, or a
non-group phase while not viewing a room, returns without throwing and
without any change: the returned state is the input state — `byRoom`, all
records, `isOpen`, the `UPDATE_EVENT` count and the settings-write count
included. -/
theorem c6_invalid_phase_rejected (env : StoreEnv) (st : RightPanelStoreState)
    (phase : RightPanelPhases) (state : Option IPanelState) (allowClose : Bool)
    (roomId : Option String)
    (hbad : RightPanelPhasesHas (resolveTarget env phase state).1 = false ∨
      (GROUP_PHASES.contains (resolveTarget env phase state).1 = true ∧
        st.isViewingRoom = true) ∨
      (GROUP_PHASES.contains (resolveTarget env phase state).1 = false ∧
        st.isViewingRoom = false)) :
    setRightPanel env st phase state allowClose roomId = some st ∧
    pushRightPanel env st phase state allowClose roomId = st := by
  have hv : isPhaseActionIsValid st (resolveTarget env phase state).1 = false := by
    unfold isPhaseActionIsValid
    rcases hbad with h | ⟨h1, h2⟩ | ⟨h1, h2⟩
    · rw [h]
      rfl
    · rw [h1, h2]
      by_cases hh : RightPanelPhasesHas (resolveTarget env phase state).1
      · rw [hh]
        rfl
      · rw [Bool.not_eq_true] at hh
        rw [hh]
        rfl
    · rw [h1, h2]
      by_cases hh : RightPanelPhasesHas (resolveTarget env phase state).1
      · rw [hh]
        rfl
      · rw [Bool.not_eq_true] at hh
        rw [hh]
        rfl
  constructor
  · unfold setRightPanel
    simp [hv]
  · unfold pushRightPanel
    simp [hv]

/-- C6 witness: requesting the group phase `GroupMemberList` while viewing
a room leaves a concrete store completely unchanged. -/
theorem c6_invalid_phase_rejected_witness :
    setRightPanel env0 stA .GroupMemberList none true none = some stA ∧
    pushRightPanel env0 stA .GroupMemberList none true none = stA :=
  c6_invalid_phase_rejected env0 stA .GroupMemberList none true none
    (Or.inr (Or.inl (by decide)))

/-- C9: when a record exists for the target conversation, one
`togglePanel` flips exactly its `isOpen` flag — history and every other
record untouched — and a second `togglePanel` restores `byRoom` exactly. -/
theorem c9_toggle_involution (st : RightPanelStoreState) (roomId : Option String)
    (roomCache : IRightPanelForRoom)
    (hlook : bLookup st.byRoom (roomId.getD st.viewedRoomId) = some roomCache) :
    ∃ st₁ st₂,
      togglePanel st roomId = some st₁ ∧
      togglePanel st₁ roomId = some st₂ ∧
      bLookup st₁.byRoom (roomId.getD st.viewedRoomId) =
        some { history := roomCache.history, isOpen := !roomCache.isOpen } ∧
      (∀ r, r ≠ roomId.getD st.viewedRoomId →
        bLookup st₁.byRoom r = bLookup st.byRoom r) ∧
      st₂.byRoom = st.byRoom := by
  have h1 := togglePanel_eq st roomId roomCache hlook
  have hb1 : bLookup (toggleResult st (roomId.getD st.viewedRoomId) roomCache).byRoom
      (roomId.getD (toggleResult st (roomId.getD st.viewedRoomId) roomCache).viewedRoomId) =
      some ({ roomCache with isOpen := !roomCache.isOpen }) := by
    rw [toggleResult_viewedRoomId, toggleResult_byRoom]
    exact bLookup_bInsert_self ..
  have h2 := togglePanel_eq _ roomId _ hb1
  refine ⟨_, _, h1, h2, ?_, ?_, ?_⟩
  · rw [toggleResult_byRoom]
    exact bLookup_bInsert_self ..
  · intro r hr
    rw [toggleResult_byRoom]
    exact bLookup_bInsert_ne _ _ _ _ hr
  · rw [toggleResult_byRoom, toggleResult_viewedRoomId, toggleResult_byRoom,
      bInsert_bInsert, Bool.not_not]
    exact bInsert_eq_of_lookup _ _ _ hlook

/-- C9 witness: toggling the concrete record for `"roomA"` twice. -/
theorem c9_toggle_involution_witness :
    ∃ st₁ st₂,
      togglePanel
        { stA with byRoom := [("roomA", { history := [emptyPanel], isOpen := false })] }
        none = some st₁ ∧
      togglePanel st₁ none = some st₂ ∧
      bLookup st₁.byRoom "roomA" =
        some { history := [emptyPanel], isOpen := true } ∧
      (∀ r, r ≠ "roomA" → bLookup st₁.byRoom r =
        bLookup [("roomA", ({ history := [emptyPanel], isOpen := false } : IRightPanelForRoom))] r) ∧
      st₂.byRoom = [("roomA", { history := [emptyPanel], isOpen := false })] :=
  c9_toggle_involution
    { stA with byRoom := [("roomA", { history := [emptyPanel], isOpen := false })] }
    none { history := [emptyPanel], isOpen := false } (by decide)

/-- C10: `setRightPanel(phase, state := null, allowClose := false)` where
the phase (trivially redirect-free, since the state is null) equals the
current phase of both the viewed and the target conversation satisfies no
branch of the if-chain: the call returns the input state unchanged — no
record change, no settings write, no `UPDATE_EVENT`. -/
theorem c10_silent_noop (env : StoreEnv) (st : RightPanelStoreState)
    (phase : RightPanelPhases) (roomId : Option String)
    (hcur : (currentPanel st).phase = some phase)
    (htarget : (currentPanelForRoom st (roomId.getD st.viewedRoomId)).phase = some phase) :
    setRightPanel env st phase none false roomId = some st := by
  have hres : resolveTarget env phase none = (phase, none) := by
    unfold resolveTarget getVerificationRedirect
    cases phase <;> rfl
  by_cases hval : isPhaseActionIsValid st phase
  · simp [setRightPanel, hres, hval, hcur]
  · simp [setRightPanel, hres, hval]

/-- C10 witness: a concrete silent no-op call on room `"roomA"`. -/
theorem c10_silent_noop_witness :
    setRightPanel env0
      { stA with byRoom :=
          [("roomA", { history := [{ phase := some .RoomSummary, state := some {} }],
                       isOpen := true })] }
      .RoomSummary none false none =
    some { stA with byRoom :=
        [("roomA", { history := [{ phase := some .RoomSummary, state := some {} }],
                     isOpen := true })] } :=
  c10_silent_noop env0
    { stA with byRoom :=
        [("roomA", { history := [{ phase := some .RoomSummary, state := some {} }],
                     isOpen := true })] }
    .RoomSummary none (by decide) (by decide)

theorem updateResult_viewedRoomId (st : RightPanelStoreState) (rId : String)
    (roomCache : IRightPanelForRoom) (ps : Option IPanelState) :
    (updateResult st rId roomCache ps).viewedRoomId = st.viewedRoomId := rfl

theorem updateResult_byRoom (st : RightPanelStoreState) (rId : String)
    (roomCache : IRightPanelForRoom) (ps : Option IPanelState) :
    (updateResult st rId roomCache ps).byRoom =
      bInsert st.byRoom rId
        ({ roomCache with history := setLastState roomCache.history ps }) := rfl

theorem currentPanelForRoom_concat (st : RightPanelStoreState) (r : String)
    (roomCache : IRightPanelForRoom) (h : List IPhaseAndState) (e : IPhaseAndState)
    (hlook : bLookup st.byRoom r = some roomCache)
    (hhist : roomCache.history = h ++ [e]) :
    currentPanelForRoom st r = e := by
  unfold currentPanelForRoom
  simp only [hlook, hhist, List.getLast?_concat]

/-- C7: with a record for the target conversation whose top entry (after
redirect resolution and validity check) already has the requested phase,
and a present resolved state `S`, `setRightPanel` performs the in-place
update: same history length, same top phase, top state replaced by `S`,
and every other conversation's record untouched. -/
theorem c7_inplace_update (env : StoreEnv) (st : RightPanelStoreState)
    (phase : RightPanelPhases) (state : Option IPanelState) (allowClose : Bool)
    (roomId : Option String) (roomCache : IRightPanelForRoom)
    (h : List IPhaseAndState) (e : IPhaseAndState) (S : IPanelState)
    (hlook : bLookup st.byRoom (roomId.getD st.viewedRoomId) = some roomCache)
    (hhist : roomCache.history = h ++ [e])
    (hval : isPhaseActionIsValid st (resolveTarget env phase state).1 = true)
    (hphase : e.phase = some (resolveTarget env phase state).1)
    (hstate : (resolveTarget env phase state).2 = some S) :
    setRightPanel env st phase state allowClose roomId =
      some (updateResult st (roomId.getD st.viewedRoomId) roomCache (some S)) ∧
    bLookup (updateResult st (roomId.getD st.viewedRoomId) roomCache (some S)).byRoom
        (roomId.getD st.viewedRoomId) =
      some { history := h ++ [{ phase := e.phase, state := some S }],
             isOpen := roomCache.isOpen } ∧
    (h ++ [({ phase := e.phase, state := some S } : IPhaseAndState)]).length =
      roomCache.history.length ∧
    currentPanelForRoom (updateResult st (roomId.getD st.viewedRoomId) roomCache (some S))
        (roomId.getD st.viewedRoomId) =
      { phase := e.phase, state := some S } ∧
    (∀ r, r ≠ roomId.getD st.viewedRoomId →
      bLookup (updateResult st (roomId.getD st.viewedRoomId) roomCache (some S)).byRoom r =
        bLookup st.byRoom r) := by
  have hcpf := currentPanelForRoom_concat st (roomId.getD st.viewedRoomId)
    roomCache h e hlook hhist
  have hrec : ({ roomCache with history := setLastState roomCache.history (some S) }
      : IRightPanelForRoom) =
      { history := h ++ [{ phase := e.phase, state := some S }],
        isOpen := roomCache.isOpen } := by
    rw [hhist, setLastState_concat]
  refine ⟨?_, ?_, ?_, ?_, ?_⟩
  · unfold setRightPanel
    simp [hval, hcpf, hphase, hstate, hlook, hhist]
    unfold updateResult
    rw [setLastState_concat, hrec]
  · rw [updateResult_byRoom, hrec]
    exact bLookup_bInsert_self ..
  · rw [hhist]
    simp
  · refine currentPanelForRoom_concat _ _
      { history := h ++ [{ phase := e.phase, state := some S }],
        isOpen := roomCache.isOpen }
      h { phase := e.phase, state := some S } ?_ rfl
    rw [updateResult_byRoom, hrec]
    exact bLookup_bInsert_self ..
  · intro r hr
    rw [updateResult_byRoom]
    exact bLookup_bInsert_ne _ _ _ _ hr

/-- C7 witness: updating the state of the current `RoomSummary` entry in a
concrete store. -/
theorem c7_inplace_update_witness :
    setRightPanel env0
      { stA with byRoom :=
          [("roomA", { history := [{ phase := some .RoomSummary, state := none }],
                       isOpen := true })] }
      .RoomSummary (some { member := some "bob" }) true none =
      some (updateResult
        { stA with byRoom :=
            [("roomA", { history := [{ phase := some .RoomSummary, state := none }],
                         isOpen := true })] }
        "roomA"
        { history := [{ phase := some .RoomSummary, state := none }], isOpen := true }
        (some { member := some "bob" })) ∧
    bLookup (updateResult
        { stA with byRoom :=
            [("roomA", { history := [{ phase := some .RoomSummary, state := none }],
                         isOpen := true })] }
        "roomA"
        { history := [{ phase := some .RoomSummary, state := none }], isOpen := true }
        (some { member := some "bob" })).byRoom "roomA" =
      some { history := [{ phase := some .RoomSummary,
                           state := some { member := some "bob" } }],
             isOpen := true } ∧
    ([] ++ [({ phase := some .RoomSummary,
               state := some ({ member := some "bob" } : IPanelState) } : IPhaseAndState)]).length =
      ([{ phase := some .RoomSummary, state := none }] : List IPhaseAndState).length ∧
    currentPanelForRoom (updateResult
        { stA with byRoom :=
            [("roomA", { history := [{ phase := some .RoomSummary, state := none }],
                         isOpen := true })] }
        "roomA"
        { history := [{ phase := some .RoomSummary, state := none }], isOpen := true }
        (some { member := some "bob" })) "roomA" =
      { phase := some .RoomSummary, state := some { member := some "bob" } } ∧
    (∀ r, r ≠ "roomA" →
      bLookup (updateResult
        { stA with byRoom :=
            [("roomA", { history := [{ phase := some .RoomSummary, state := none }],
                         isOpen := true })] }
        "roomA"
        { history := [{ phase := some .RoomSummary, state := none }], isOpen := true }
        (some { member := some "bob" })).byRoom r =
      bLookup [("roomA", ({ history := [{ phase := some .RoomSummary, state := none }],
                            isOpen := true } : IRightPanelForRoom))] r) :=
  c7_inplace_update env0
    { stA with byRoom :=
        [("roomA", { history := [{ phase := some .RoomSummary, state := none }],
                     isOpen := true })] }
    .RoomSummary (some { member := some "bob" }) true none
    { history := [{ phase := some .RoomSummary, state := none }], isOpen := true }
    [] { phase := some .RoomSummary, state := none } { member := some "bob" }
    (by decide) (by decide) (by decide) (by decide) (by decide)

theorem currentPanel_hist_congr (st st' : RightPanelStoreState)
    (hb : (bLookup st'.byRoom st'.viewedRoomId).map (fun rc => rc.history) =
      (bLookup st.byRoom st.viewedRoomId).map (fun rc => rc.history)) :
    currentPanel st' = currentPanel st := by
  unfold currentPanel roomPhaseHistory
  cases h1 : bLookup st'.byRoom st'.viewedRoomId with
  | none =>
    cases h2 : bLookup st.byRoom st.viewedRoomId with
    | none => rfl
    | some rc =>
      rw [h1, h2] at hb
      simp at hb
  | some rc =>
    cases h2 : bLookup st.byRoom st.viewedRoomId with
    | none =>
      rw [h1, h2] at hb
      simp at hb
    | some rc' =>
      rw [h1, h2] at hb
      simp at hb
      simp [hb]

theorem currentPanelForRoom_hist_congr (st st' : RightPanelStoreState) (r : String)
    (hb : (bLookup st'.byRoom r).map (fun rc => rc.history) =
      (bLookup st.byRoom r).map (fun rc => rc.history))
    (hself : (bLookup st'.byRoom st'.viewedRoomId).map (fun rc => rc.history) =
      (bLookup st.byRoom st.viewedRoomId).map (fun rc => rc.history)) :
    currentPanelForRoom st' r = currentPanelForRoom st r := by
  have hcp := currentPanel_hist_congr st st' hself
  unfold currentPanelForRoom
  cases h1 : bLookup st'.byRoom r with
  | none =>
    cases h2 : bLookup st.byRoom r with
    | none => simp [hcp]
    | some rc =>
      rw [h1, h2] at hb
      simp at hb
  | some rc =>
    cases h2 : bLookup st.byRoom r with
    | none =>
      rw [h1, h2] at hb
      simp at hb
    | some rc' =>
      rw [h1, h2] at hb
      simp at hb
      cases hl : rc'.history.getLast? with
      | none => simp [hb, hl, hcp]
      | some e => simp [hb, hl]

/-- C8: pushing a valid entry on an existing record and then popping it on
the same conversation restores that record's history exactly — the prior
`currentEntry` (same phase, same state) included — leaves every other
record untouched, and the pop itself changes no record's `isOpen` flag. -/
theorem c8_push_then_pop_restores (env : StoreEnv) (st : RightPanelStoreState)
    (phase : RightPanelPhases) (state : Option IPanelState) (allowClose : Bool)
    (roomId : Option String) (roomCache : IRightPanelForRoom)
    (hlook : bLookup st.byRoom (roomId.getD st.viewedRoomId) = some roomCache)
    (hval : isPhaseActionIsValid st (resolveTarget env phase state).1 = true) :
    ∃ st₂,
      popRightPanel (pushRightPanel env st phase state allowClose roomId) roomId =
        some st₂ ∧
      bLookup st₂.byRoom (roomId.getD st.viewedRoomId) =
        some { history := roomCache.history,
               isOpen := if allowClose then roomCache.isOpen else true } ∧
      currentPanelForRoom st₂ (roomId.getD st.viewedRoomId) =
        currentPanelForRoom st (roomId.getD st.viewedRoomId) ∧
      (∀ r, r ≠ roomId.getD st.viewedRoomId →
        bLookup st₂.byRoom r = bLookup st.byRoom r) ∧
      (∀ r, (bLookup st₂.byRoom r).map (fun rc => rc.isOpen) =
        (bLookup (pushRightPanel env st phase state allowClose roomId).byRoom r).map
          (fun rc => rc.isOpen)) := by
  set rId := roomId.getD st.viewedRoomId with hr
  set tp := (resolveTarget env phase state).1 with htp
  set ps := (resolveTarget env phase state).2 with hps
  set newRecord : IRightPanelForRoom :=
    { history := roomCache.history ++ [{ phase := some tp, state := ps }],
      isOpen := if allowClose then roomCache.isOpen else true } with hnr
  have h1 : pushRightPanel env st phase state allowClose roomId =
      pushResult st rId roomCache tp ps allowClose :=
    pushRightPanel_eq env st phase state allowClose roomId roomCache hval hlook
  have h2 : popRightPanel (pushRightPanel env st phase state allowClose roomId) roomId =
      some (popResult (pushResult st rId roomCache tp ps allowClose) rId newRecord) := by
    rw [h1]
    have hb : bLookup (pushResult st rId roomCache tp ps allowClose).byRoom
        (roomId.getD (pushResult st rId roomCache tp ps allowClose).viewedRoomId) =
        some newRecord := by
      rw [pushResult_viewedRoomId, pushResult_byRoom, ← hr]
      exact bLookup_bInsert_self ..
    exact popRightPanel_eq _ roomId _ hb
  have hdrop : ({ newRecord with history := newRecord.history.dropLast }
      : IRightPanelForRoom) =
      { history := roomCache.history,
        isOpen := if allowClose then roomCache.isOpen else true } := by
    rw [hnr]
    simp
  have hby : (popResult (pushResult st rId roomCache tp ps allowClose) rId newRecord).byRoom =
      bInsert st.byRoom rId
        { history := roomCache.history,
          isOpen := if allowClose then roomCache.isOpen else true } := by
    rw [popResult_byRoom, pushResult_byRoom, bInsert_bInsert, hdrop]
  refine ⟨_, h2, ?_, ?_, ?_, ?_⟩
  · rw [hby]
    exact bLookup_bInsert_self ..
  · refine currentPanelForRoom_hist_congr st _ rId ?_ ?_
    · rw [hby, bLookup_bInsert_self, hlook]
      rfl
    · rw [show (popResult (pushResult st rId roomCache tp ps allowClose) rId
          newRecord).viewedRoomId = st.viewedRoomId from rfl]
      by_cases hvr : st.viewedRoomId = rId
      · rw [hvr, hby, bLookup_bInsert_self, hlook]
        rfl
      · rw [hby, bLookup_bInsert_ne _ _ _ _ hvr]
  · intro r hrr
    rw [hby]
    exact bLookup_bInsert_ne _ _ _ _ hrr
  · intro r
    rw [hby, h1, pushResult_byRoom]
    by_cases hrr : r = rId
    · rw [hrr, bLookup_bInsert_self, bLookup_bInsert_self]
      rfl
    · rw [bLookup_bInsert_ne _ _ _ _ hrr, bLookup_bInsert_ne _ _ _ _ hrr]

/-- C8 witness: pushing `FilePanel` onto the concrete `"roomA"` record and
popping restores the record exactly. -/
theorem c8_push_then_pop_restores_witness :
    ∃ st₂,
      popRightPanel (pushRightPanel env0
        { stA with byRoom := [("roomA", { history := [emptyPanel], isOpen := false })] }
        .FilePanel none true none) none = some st₂ ∧
      bLookup st₂.byRoom "roomA" = some { history := [emptyPanel], isOpen := false } ∧
      currentPanelForRoom st₂ "roomA" =
        currentPanelForRoom
          { stA with byRoom := [("roomA", { history := [emptyPanel], isOpen := false })] }
          "roomA" ∧
      (∀ r, r ≠ "roomA" → bLookup st₂.byRoom r =
        bLookup [("roomA", ({ history := [emptyPanel], isOpen := false } : IRightPanelForRoom))] r) ∧
      (∀ r, (bLookup st₂.byRoom r).map (fun rc => rc.isOpen) =
        (bLookup (pushRightPanel env0
          { stA with byRoom := [("roomA", { history := [emptyPanel], isOpen := false })] }
          .FilePanel none true none).byRoom r).map (fun rc => rc.isOpen)) :=
  c8_push_then_pop_restores env0
    { stA with byRoom := [("roomA", { history := [emptyPanel], isOpen := false })] }
    .FilePanel none true none { history := [emptyPanel], isOpen := false }
    (by decide) (by decide)

theorem setRightPanelCache_byRoom (st : RightPanelStoreState)
    (tp : RightPanelPhases) (ps : Option IPanelState) :
    (setRightPanelCache st tp ps).byRoom =
      bInsert st.byRoom st.viewedRoomId
        { history := [{ phase := some tp, state := some (ps.getD {}) }],
          isOpen := true } := rfl

theorem setRightPanelCache_roomStoreToken (st : RightPanelStoreState)
    (tp : RightPanelPhases) (ps : Option IPanelState) :
    (setRightPanelCache st tp ps).roomStoreToken = st.roomStoreToken := rfl

theorem setRightPanel_reset_branch (env : StoreEnv) (st : RightPanelStoreState)
    (phase : RightPanelPhases) (state : Option IPanelState) (allowClose : Bool)
    (roomId : Option String)
    (hval : isPhaseActionIsValid st (resolveTarget env phase state).1 = true)
    (hdiff : (currentPanel st).phase ≠ some (resolveTarget env phase state).1)
    (hnoupd : ¬((currentPanelForRoom st (roomId.getD st.viewedRoomId)).phase =
        some (resolveTarget env phase state).1 ∧
      (resolveTarget env phase state).2 ≠ none)) :
    setRightPanel env st phase state allowClose roomId =
      some (setRightPanelCache st (resolveTarget env phase state).1
        (resolveTarget env phase state).2) := by
  unfold setRightPanel
  simp only [hval, Bool.not_true, Bool.false_eq_true, if_false]
  rw [if_neg, if_neg hnoupd, if_pos hdiff]
  intro hc
  exact hdiff hc.1

/-- C3 (amended): when the redirect-resolved phase `Y` is valid, differs
from the *viewed* conversation's current phase, and the in-place-update
guard fails for the target conversation, the hard-reset branch of
`setRightPanel` replaces the history of the record of the *currently
viewed* conversation with the single entry `{Y, state or {}}` and opens it
— leaving every other conversation's record, including an explicitly
targeted different conversation, unchanged. -/
theorem c3_hard_reset_replaces_viewed_room (env : StoreEnv) (st : RightPanelStoreState)
    (phase : RightPanelPhases) (state : Option IPanelState) (allowClose : Bool)
    (roomId : Option String)
    (hval : isPhaseActionIsValid st (resolveTarget env phase state).1 = true)
    (hdiff : (currentPanel st).phase ≠ some (resolveTarget env phase state).1)
    (hnoupd : ¬((currentPanelForRoom st (roomId.getD st.viewedRoomId)).phase =
        some (resolveTarget env phase state).1 ∧
      (resolveTarget env phase state).2 ≠ none)) :
    setRightPanel env st phase state allowClose roomId =
      some (setRightPanelCache st (resolveTarget env phase state).1
        (resolveTarget env phase state).2) ∧
    bLookup (setRightPanelCache st (resolveTarget env phase state).1
        (resolveTarget env phase state).2).byRoom st.viewedRoomId =
      some { history := [{ phase := some (resolveTarget env phase state).1,
                           state := some (((resolveTarget env phase state).2).getD {}) }],
             isOpen := true } ∧
    (∀ r, r ≠ st.viewedRoomId →
      bLookup (setRightPanelCache st (resolveTarget env phase state).1
          (resolveTarget env phase state).2).byRoom r =
        bLookup st.byRoom r) := by
  refine ⟨setRightPanel_reset_branch env st phase state allowClose roomId hval hdiff hnoupd,
    ?_, ?_⟩
  · rw [setRightPanelCache_byRoom]
    exact bLookup_bInsert_self ..
  · intro r hr
    rw [setRightPanelCache_byRoom]
    exact bLookup_bInsert_ne _ _ _ _ hr

/-- C3 witness: hard reset to `FilePanel` targeting the viewed room
`"roomA"` of a concrete store. -/
theorem c3_hard_reset_replaces_viewed_room_witness :
    setRightPanel env0
      { stA with byRoom :=
          [("roomA", { history := [{ phase := some .RoomSummary, state := some {} }],
                       isOpen := false })] }
      .FilePanel none true none =
      some (setRightPanelCache
        { stA with byRoom :=
            [("roomA", { history := [{ phase := some .RoomSummary, state := some {} }],
                         isOpen := false })] }
        .FilePanel none) ∧
    bLookup (setRightPanelCache
        { stA with byRoom :=
            [("roomA", { history := [{ phase := some .RoomSummary, state := some {} }],
                         isOpen := false })] }
        .FilePanel none).byRoom "roomA" =
      some { history := [{ phase := some .FilePanel, state := some {} }],
             isOpen := true } ∧
    (∀ r, r ≠ "roomA" →
      bLookup (setRightPanelCache
          { stA with byRoom :=
              [("roomA", { history := [{ phase := some .RoomSummary, state := some {} }],
                           isOpen := false })] }
          .FilePanel none).byRoom r =
        bLookup [("roomA", ({ history := [{ phase := some .RoomSummary, state := some {} }],
                              isOpen := false } : IRightPanelForRoom))] r) :=
  c3_hard_reset_replaces_viewed_room env0
    { stA with byRoom :=
        [("roomA", { history := [{ phase := some .RoomSummary, state := some {} }],
                     isOpen := false })] }
    .FilePanel none true none (by decide) (by decide) (by decide)

/-- C4 (amended): the cross-mode coercion to `RoomMemberList` fires in the
*opposite* direction from the claim: when switching from conversation A in
*group* mode whose current top phase is in the member-info family to
conversation B in *room* mode, A's stored top phase is hard-reset to
`RoomMemberList` with empty state before `viewedRoomId`/`isViewingRoom`
are updated, and every other record — B's included — is untouched.
(Switching room → group coerces only a `GroupMemberInfo` top, so a
`RoomMemberInfo` top survives that direction unchanged, as the
counterexample shows.) -/
theorem c4_group_to_room_coercion (env : StoreEnv) (st : RightPanelStoreState)
    (B : String) (p : RightPanelPhases)
    (hmode : st.isViewingRoom = false)
    (hne : B ≠ st.viewedRoomId)
    (hphase : (currentPanel st).phase = some p)
    (hmem : MEMBER_INFO_PHASES.contains p = true)
    (htok : st.roomStoreToken = false) :
    onDispatch env st { action := .ViewRoom, room_id := B } =
      { setRightPanelCache st .RoomMemberList (some {}) with
          viewedRoomId := B, isViewingRoom := true } ∧
    bLookup (onDispatch env st { action := .ViewRoom, room_id := B }).byRoom
        st.viewedRoomId =
      some { history := [{ phase := some .RoomMemberList, state := some {} }],
             isOpen := true } ∧
    (∀ r, r ≠ st.viewedRoomId →
      bLookup (onDispatch env st { action := .ViewRoom, room_id := B }).byRoom r =
        bLookup st.byRoom r) ∧
    (onDispatch env st { action := .ViewRoom, room_id := B }).viewedRoomId = B ∧
    (onDispatch env st { action := .ViewRoom, room_id := B }).isViewingRoom = true := by
  have hmain : onDispatch env st { action := .ViewRoom, room_id := B } =
      { setRightPanelCache st .RoomMemberList (some {}) with
          viewedRoomId := B, isViewingRoom := true } := by
    have hmem' : p ∈ MEMBER_INFO_PHASES := by
      simpa using hmem
    unfold onDispatch
    simp [hne, hmode, hphase, hmem', setRightPanelCache_roomStoreToken, htok]
  refine ⟨hmain, ?_, ?_, ?_, ?_⟩
  · rw [hmain]
    rw [show ({ setRightPanelCache st .RoomMemberList (some {}) with
        viewedRoomId := B, isViewingRoom := true } : RightPanelStoreState).byRoom =
      (setRightPanelCache st .RoomMemberList (some {})).byRoom from rfl]
    rw [setRightPanelCache_byRoom]
    exact bLookup_bInsert_self ..
  · intro r hr
    rw [hmain]
    rw [show ({ setRightPanelCache st .RoomMemberList (some {}) with
        viewedRoomId := B, isViewingRoom := true } : RightPanelStoreState).byRoom =
      (setRightPanelCache st .RoomMemberList (some {})).byRoom from rfl]
    rw [setRightPanelCache_byRoom]
    exact bLookup_bInsert_ne _ _ _ _ hr
  · rw [hmain]
  · rw [hmain]

/-- C4 witness: a concrete group-mode store on `"roomA"` with a
`RoomMemberInfo` top entry, switching to room `"roomB"`. -/
theorem c4_group_to_room_coercion_witness :
    onDispatch env0
      { stA with isViewingRoom := false,
                 byRoom := [("roomA",
                   { history := [{ phase := some .RoomMemberInfo, state := some {} }],
                     isOpen := true })] }
      { action := .ViewRoom, room_id := "roomB" } =
      { setRightPanelCache
          { stA with isViewingRoom := false,
                     byRoom := [("roomA",
                       { history := [{ phase := some .RoomMemberInfo, state := some {} }],
                         isOpen := true })] }
          .RoomMemberList (some {}) with
        viewedRoomId := "roomB", isViewingRoom := true } ∧
    bLookup (onDispatch env0
        { stA with isViewingRoom := false,
                   byRoom := [("roomA",
                     { history := [{ phase := some .RoomMemberInfo, state := some {} }],
                       isOpen := true })] }
        { action := .ViewRoom, room_id := "roomB" }).byRoom "roomA" =
      some { history := [{ phase := some .RoomMemberList, state := some {} }],
             isOpen := true } ∧
    (∀ r, r ≠ "roomA" →
      bLookup (onDispatch env0
          { stA with isViewingRoom := false,
                     byRoom := [("roomA",
                       { history := [{ phase := some .RoomMemberInfo, state := some {} }],
                         isOpen := true })] }
          { action := .ViewRoom, room_id := "roomB" }).byRoom r =
        bLookup [("roomA",
          ({ history := [{ phase := some .RoomMemberInfo, state := some {} }],
             isOpen := true } : IRightPanelForRoom))] r) ∧
    (onDispatch env0
        { stA with isViewingRoom := false,
                   byRoom := [("roomA",
                     { history := [{ phase := some .RoomMemberInfo, state := some {} }],
                       isOpen := true })] }
        { action := .ViewRoom, room_id := "roomB" }).viewedRoomId = "roomB" ∧
    (onDispatch env0
        { stA with isViewingRoom := false,
                   byRoom := [("roomA",
                     { history := [{ phase := some .RoomMemberInfo, state := some {} }],
                       isOpen := true })] }
        { action := .ViewRoom, room_id := "roomB" }).isViewingRoom = true :=
  c4_group_to_room_coercion env0
    { stA with isViewingRoom := false,
               byRoom := [("roomA",
                 { history := [{ phase := some .RoomMemberInfo, state := some {} }],
                   isOpen := true })] }
    "roomB" .RoomMemberInfo (by decide) (by decide) (by decide) (by decide) (by decide)

theorem currentPanel_of_concat (st : RightPanelStoreState)
    (roomCache : IRightPanelForRoom) (h : List IPhaseAndState) (e : IPhaseAndState)
    (hlook : bLookup st.byRoom st.viewedRoomId = some roomCache)
    (hhist : roomCache.history = h ++ [e]) :
    currentPanel st = e := by
  unfold currentPanel roomPhaseHistory
  simp only [hlook, hhist, List.getLast?_concat]

theorem currentPanel_phase_some (st : RightPanelStoreState) (p : RightPanelPhases)
    (hp : (currentPanel st).phase = some p) :
    ∃ roomCache h e, bLookup st.byRoom st.viewedRoomId = some roomCache ∧
      roomCache.history = h ++ [e] ∧ e.phase = some p := by
  cases hb : bLookup st.byRoom st.viewedRoomId with
  | none =>
    exfalso
    have hcp : currentPanel st = emptyPanel := by
      unfold currentPanel roomPhaseHistory
      simp [hb]
    rw [hcp] at hp
    simp [emptyPanel] at hp
  | some rc =>
    rcases List.eq_nil_or_concat rc.history with hnil | ⟨L, b, hconcat⟩
    · exfalso
      have hcp : currentPanel st = emptyPanel := by
        unfold currentPanel roomPhaseHistory
        simp [hb, hnil]
      rw [hcp] at hp
      simp [emptyPanel] at hp
    · rw [List.concat_eq_append] at hconcat
      have hcp := currentPanel_of_concat st rc L b hb hconcat
      rw [hcp] at hp
      exact ⟨rc, L, b, rfl, hconcat, hp⟩

theorem setRightPanel_update_branch (env : StoreEnv) (st : RightPanelStoreState)
    (phase : RightPanelPhases) (state : Option IPanelState) (allowClose : Bool)
    (roomId : Option String) (roomCache : IRightPanelForRoom)
    (h : List IPhaseAndState) (e : IPhaseAndState) (S : IPanelState)
    (hlook : bLookup st.byRoom (roomId.getD st.viewedRoomId) = some roomCache)
    (hhist : roomCache.history = h ++ [e])
    (hval : isPhaseActionIsValid st (resolveTarget env phase state).1 = true)
    (hphase : e.phase = some (resolveTarget env phase state).1)
    (hstate : (resolveTarget env phase state).2 = some S) :
    setRightPanel env st phase state allowClose roomId =
      some (updateResult st (roomId.getD st.viewedRoomId) roomCache (some S)) := by
  have hcpf := currentPanelForRoom_concat st (roomId.getD st.viewedRoomId)
    roomCache h e hlook hhist
  have hrec : ({ roomCache with history := setLastState roomCache.history (some S) }
      : IRightPanelForRoom) =
      { history := h ++ [{ phase := e.phase, state := some S }],
        isOpen := roomCache.isOpen } := by
    rw [hhist, setLastState_concat]
  unfold setRightPanel
  simp [hval, hcpf, hphase, hstate, hlook, hhist]
  unfold updateResult
  rw [setLastState_concat, hrec]

theorem currentPanel_pushResult (st : RightPanelStoreState)
    (roomCache : IRightPanelForRoom) (tp : RightPanelPhases)
    (ps : Option IPanelState) (allowClose : Bool) :
    currentPanel (pushResult st st.viewedRoomId roomCache tp ps allowClose) =
      { phase := some tp, state := ps } := by
  refine currentPanel_of_concat _
    { history := roomCache.history ++ [{ phase := some tp, state := ps }],
      isOpen := if allowClose then roomCache.isOpen else true }
    roomCache.history { phase := some tp, state := ps } ?_ rfl
  rw [pushResult_viewedRoomId, pushResult_byRoom]
  exact bLookup_bInsert_self ..

theorem setRightPanel_roomId_congr (env : StoreEnv) (st : RightPanelStoreState)
    (phase : RightPanelPhases) (state : Option IPanelState) (allowClose : Bool)
    (roomId : Option String)
    (hroom : roomId.getD st.viewedRoomId = st.viewedRoomId) :
    setRightPanel env st phase state allowClose roomId =
      setRightPanel env st phase state allowClose none := by
  unfold setRightPanel
  simp only [hroom, Option.getD_none]

theorem pushRightPanel_roomId_congr (env : StoreEnv) (st : RightPanelStoreState)
    (phase : RightPanelPhases) (state : Option IPanelState) (allowClose : Bool)
    (roomId : Option String)
    (hroom : roomId.getD st.viewedRoomId = st.viewedRoomId) :
    pushRightPanel env st phase state allowClose roomId =
      pushRightPanel env st phase state allowClose none := by
  unfold pushRightPanel
  simp only [hroom, Option.getD_none]

theorem setRightPanel_installs (env : StoreEnv) (st : RightPanelStoreState)
    (phase : RightPanelPhases) (state : Option IPanelState) (allowClose : Bool)
    (S' : IPanelState)
    (hval : isPhaseActionIsValid st (resolveTarget env phase state).1 = true)
    (hstate : (resolveTarget env phase state).2 = some S') :
    (setRightPanel env st phase state allowClose none).map currentPanel =
      some { phase := some (resolveTarget env phase state).1, state := some S' } := by
  by_cases hcur : (currentPanel st).phase = some (resolveTarget env phase state).1
  · obtain ⟨rc, L, b, hb, hconcat, hbp⟩ := currentPanel_phase_some st _ hcur
    have hupd := setRightPanel_update_branch env st phase state allowClose none
      rc L b S' hb hconcat hval hbp hstate
    rw [hupd]
    have hrec : ({ rc with history := setLastState rc.history (some S') }
        : IRightPanelForRoom) =
        { history := L ++ [{ phase := b.phase, state := some S' }],
          isOpen := rc.isOpen } := by
      rw [hconcat, setLastState_concat]
    have hlook2 : bLookup
        (updateResult st (Option.getD none st.viewedRoomId) rc (some S')).byRoom
        (updateResult st (Option.getD none st.viewedRoomId) rc (some S')).viewedRoomId =
        some { history := L ++ [{ phase := b.phase, state := some S' }],
               isOpen := rc.isOpen } := by
      rw [updateResult_viewedRoomId, updateResult_byRoom, hrec]
      exact bLookup_bInsert_self ..
    have hcp2 := currentPanel_of_concat _ _ L
      { phase := b.phase, state := some S' } hlook2 rfl
    rw [Option.map_some', hcp2, hbp]
  · have hrst := setRightPanel_reset_branch env st phase state allowClose none hval hcur
      (by
        intro hc
        refine hcur ?_
        rw [← currentPanelForRoom_viewed st]
        exact hc.1)
    rw [hrst, hstate]
    have hlook3 : bLookup
        (setRightPanelCache st (resolveTarget env phase state).1 (some S')).byRoom
        (setRightPanelCache st (resolveTarget env phase state).1 (some S')).viewedRoomId =
        some { history := [{ phase := some (resolveTarget env phase state).1,
                             state := some S' }],
               isOpen := true } := by
      rw [setRightPanelCache_byRoom]
      exact bLookup_bInsert_self ..
    have hcp3 := currentPanel_of_concat _ _ []
      { phase := some (resolveTarget env phase state).1, state := some S' } hlook3 rfl
    rw [Option.map_some', hcp3]

/-- C5 (amended): for calls that target the viewed conversation
(`conversationId` omitted or equal to it), the redirect behaves as
claimed: with a pending verification request `R` for member `M`, a
room-mode `setRightPanel(RoomMemberInfo, S)` call with `S.member = M`
always yields `currentEntry() = {EncryptionPanel, {verificationRequest:
R, member: M}}` — the requested phase and state are discarded — and so
does `pushRightPanel` whenever that conversation already has a record;
with no pending request the redirect is the identity (`null`) and both
calls install the requested phase and state unchanged (`pushRightPanel`
again requiring an existing record).  Outside these cases the original
claim fails: a push on a fresh conversation changes nothing (the
record-creation defect of the counterexample), and an explicit
`conversationId` different from the viewed conversation never changes
`currentEntry()`, which reads the viewed conversation's record. -/
theorem c5_verification_redirect (env : StoreEnv) (st : RightPanelStoreState)
    (S : IPanelState) (M : String) (R : Nat) (roomCache : IRightPanelForRoom)
    (allowClose : Bool) (roomId : Option String)
    (hview : st.isViewingRoom = true)
    (hmem : S.member = some M)
    (hroom : roomId.getD st.viewedRoomId = st.viewedRoomId) :
    (env.pendingVerificationRequestForUser (some M) = some R →
      getVerificationRedirect env .RoomMemberInfo (some S) =
        some (.EncryptionPanel, redirectedState M R) ∧
      ((setRightPanel env st .RoomMemberInfo (some S) allowClose roomId).map
          currentPanel =
        some { phase := some .EncryptionPanel,
               state := some (redirectedState M R) }) ∧
      (bLookup st.byRoom st.viewedRoomId = some roomCache →
        currentPanel (pushRightPanel env st .RoomMemberInfo (some S) allowClose roomId) =
          { phase := some .EncryptionPanel,
            state := some (redirectedState M R) })) ∧
    (env.pendingVerificationRequestForUser (some M) = none →
      getVerificationRedirect env .RoomMemberInfo (some S) = none ∧
      ((setRightPanel env st .RoomMemberInfo (some S) allowClose roomId).map
          currentPanel =
        some { phase := some .RoomMemberInfo, state := some S }) ∧
      (bLookup st.byRoom st.viewedRoomId = some roomCache →
        currentPanel (pushRightPanel env st .RoomMemberInfo (some S) allowClose roomId) =
          { phase := some .RoomMemberInfo, state := some S })) := by
  rw [setRightPanel_roomId_congr env st .RoomMemberInfo (some S) allowClose roomId hroom,
    pushRightPanel_roomId_congr env st .RoomMemberInfo (some S) allowClose roomId hroom]
  constructor
  · intro hpend
    have hgvr : getVerificationRedirect env .RoomMemberInfo (some S) =
        some (.EncryptionPanel, redirectedState M R) := by
      unfold getVerificationRedirect redirectedState
      simp [hmem, hpend]
    have hred : resolveTarget env .RoomMemberInfo (some S) =
        (.EncryptionPanel, some (redirectedState M R)) := by
      unfold resolveTarget
      rw [hgvr]
    have hval : isPhaseActionIsValid st .EncryptionPanel = true := by
      unfold isPhaseActionIsValid
      rw [hview]
      rfl
    refine ⟨hgvr, ?_, ?_⟩
    · have hinst := setRightPanel_installs env st .RoomMemberInfo (some S) allowClose
        (redirectedState M R) (by rw [hred]; exact hval) (by rw [hred])
      rw [hred] at hinst
      exact hinst
    · intro hlook
      have hpush := pushRightPanel_eq env st .RoomMemberInfo (some S) allowClose none
        roomCache (by rw [hred]; exact hval) hlook
      rw [hpush]
      simp only [hred, Option.getD_none]
      exact currentPanel_pushResult st roomCache .EncryptionPanel
        (some (redirectedState M R)) allowClose
  · intro hpend
    have hgvr : getVerificationRedirect env .RoomMemberInfo (some S) = none := by
      unfold getVerificationRedirect
      simp [hmem, hpend]
    have hred : resolveTarget env .RoomMemberInfo (some S) =
        (.RoomMemberInfo, some S) := by
      unfold resolveTarget
      rw [hgvr]
    have hval : isPhaseActionIsValid st .RoomMemberInfo = true := by
      unfold isPhaseActionIsValid
      rw [hview]
      rfl
    refine ⟨hgvr, ?_, ?_⟩
    · have hinst := setRightPanel_installs env st .RoomMemberInfo (some S) allowClose S
        (by rw [hred]; exact hval) (by rw [hred])
      rw [hred] at hinst
      exact hinst
    · intro hlook
      have hpush := pushRightPanel_eq env st .RoomMemberInfo (some S) allowClose none
        roomCache (by rw [hred]; exact hval) hlook
      rw [hpush]
      simp only [hred, Option.getD_none]
      exact currentPanel_pushResult st roomCache .RoomMemberInfo (some S) allowClose

/-- C5 witness: the amended redirect law instantiated at member `"alice"`
with pending request `7` in `env1`, on a store whose viewed room `"roomA"`
has a `RoomSummary` record, with `conversationId` omitted. -/
theorem c5_verification_redirect_witness :
    (env1.pendingVerificationRequestForUser (some "alice") = some 7 →
      getVerificationRedirect env1 .RoomMemberInfo (some { member := some "alice" }) =
        some (.EncryptionPanel, redirectedState "alice" 7) ∧
      ((setRightPanel env1
          { stA with byRoom :=
              [("roomA", { history := [{ phase := some .RoomSummary, state := some {} }],
                           isOpen := true })] }
          .RoomMemberInfo (some { member := some "alice" }) true none).map currentPanel =
        some { phase := some .EncryptionPanel,
               state := some (redirectedState "alice" 7) }) ∧
      (bLookup ({ stA with byRoom :=
            [("roomA", { history := [{ phase := some .RoomSummary, state := some {} }],
                         isOpen := true })] } : RightPanelStoreState).byRoom
          ({ stA with byRoom :=
            [("roomA", { history := [{ phase := some .RoomSummary, state := some {} }],
                         isOpen := true })] } : RightPanelStoreState).viewedRoomId =
          some { history := [{ phase := some .RoomSummary, state := some {} }],
                 isOpen := true } →
        currentPanel (pushRightPanel env1
          { stA with byRoom :=
              [("roomA", { history := [{ phase := some .RoomSummary, state := some {} }],
                           isOpen := true })] }
          .RoomMemberInfo (some { member := some "alice" }) true none) =
          { phase := some .EncryptionPanel,
            state := some (redirectedState "alice" 7) })) ∧
    (env1.pendingVerificationRequestForUser (some "alice") = none →
      getVerificationRedirect env1 .RoomMemberInfo (some { member := some "alice" }) = none ∧
      ((setRightPanel env1
          { stA with byRoom :=
              [("roomA", { history := [{ phase := some .RoomSummary, state := some {} }],
                           isOpen := true })] }
          .RoomMemberInfo (some { member := some "alice" }) true none).map currentPanel =
        some { phase := some .RoomMemberInfo,
               state := some { member := some "alice" } }) ∧
      (bLookup ({ stA with byRoom :=
            [("roomA", { history := [{ phase := some .RoomSummary, state := some {} }],
                         isOpen := true })] } : RightPanelStoreState).byRoom
          ({ stA with byRoom :=
            [("roomA", { history := [{ phase := some .RoomSummary, state := some {} }],
                         isOpen := true })] } : RightPanelStoreState).viewedRoomId =
          some { history := [{ phase := some .RoomSummary, state := some {} }],
                 isOpen := true } →
        currentPanel (pushRightPanel env1
          { stA with byRoom :=
              [("roomA", { history := [{ phase := some .RoomSummary, state := some {} }],
                           isOpen := true })] }
          .RoomMemberInfo (some { member := some "alice" }) true none) =
          { phase := some .RoomMemberInfo,
            state := some { member := some "alice" } })) :=
  c5_verification_redirect env1
    { stA with byRoom :=
        [("roomA", { history := [{ phase := some .RoomSummary, state := some {} }],
                     isOpen := true })] }
    { member := some "alice" } "alice" 7
    { history := [{ phase := some .RoomSummary, state := some {} }], isOpen := true }
    true none (by decide) (by decide) (by decide)

theorem setLastState_isEmpty (l : List IPhaseAndState) (s : Option IPanelState) :
    (setLastState l s).isEmpty = l.isEmpty := by
  cases l with
  | nil => rfl
  | cons a t => cases t <;> rfl

theorem togglePanel_preserves_nonEmpty (st st' : RightPanelStoreState)
    (roomId : Option String) (h : togglePanel st roomId = some st')
    (hne : recordsNonEmptyB st = true) : recordsNonEmptyB st' = true := by
  unfold togglePanel at h
  cases hb : bLookup st.byRoom (roomId.getD st.viewedRoomId) with
  | none => simp [hb] at h
  | some rc =>
    simp only [hb] at h
    injection h with h2
    rw [← h2]
    unfold recordsNonEmptyB
    rw [emit_byRoom]
    exact all_bInsert _ _ _ _ hne
      (all_of_bLookup _ st.byRoom (roomId.getD st.viewedRoomId) rc hne hb)

theorem pushRightPanel_preserves_nonEmpty (env : StoreEnv)
    (st : RightPanelStoreState) (phase : RightPanelPhases)
    (state : Option IPanelState) (allowClose : Bool) (roomId : Option String)
    (hne : recordsNonEmptyB st = true) :
    recordsNonEmptyB (pushRightPanel env st phase state allowClose roomId) = true := by
  unfold pushRightPanel
  by_cases hval : isPhaseActionIsValid st (resolveTarget env phase state).1
  · cases hb : bLookup st.byRoom (roomId.getD st.viewedRoomId) with
    | none => simpa [hval, hb, recordsNonEmptyB, emit_byRoom] using hne
    | some rc =>
      simp only [hval, Bool.not_true, Bool.false_eq_true, if_false, hb]
      unfold recordsNonEmptyB
      rw [emit_byRoom]
      refine all_bInsert _ _ _ _ hne ?_
      simp
  · simpa [hval] using hne

theorem setRightPanel_preserves_nonEmpty (env : StoreEnv)
    (st st' : RightPanelStoreState) (phase : RightPanelPhases)
    (state : Option IPanelState) (allowClose : Bool) (roomId : Option String)
    (h : setRightPanel env st phase state allowClose roomId = some st')
    (hne : recordsNonEmptyB st = true) : recordsNonEmptyB st' = true := by
  unfold setRightPanel at h
  by_cases hval : isPhaseActionIsValid st (resolveTarget env phase state).1
  · simp only [hval, Bool.not_true, Bool.false_eq_true, if_false] at h
    by_cases h1 : (currentPanel st).phase = some (resolveTarget env phase state).1 ∧
        allowClose = true ∧ (resolveTarget env phase state).2 = none
    · rw [if_pos h1] at h
      exact togglePanel_preserves_nonEmpty st st' _ h hne
    · rw [if_neg h1] at h
      by_cases h2 : (currentPanelForRoom st (roomId.getD st.viewedRoomId)).phase =
          some (resolveTarget env phase state).1 ∧ (resolveTarget env phase state).2 ≠ none
      · rw [if_pos h2] at h
        cases hb : bLookup st.byRoom (roomId.getD st.viewedRoomId) with
        | none =>
          simp only [hb] at h
          exact Option.noConfusion h
        | some roomCache =>
          simp only [hb] at h
          by_cases h3 : roomCache.history = []
          · rw [if_pos h3] at h
            exact Option.noConfusion h
          · rw [if_neg h3] at h
            injection h with h4
            rw [← h4]
            unfold recordsNonEmptyB
            rw [emit_byRoom]
            refine all_bInsert _ _ _ _ hne ?_
            show (!(setLastState roomCache.history
              (resolveTarget env phase state).2).isEmpty) = true
            rw [setLastState_isEmpty]
            exact all_of_bLookup _ st.byRoom _ roomCache hne hb
      · rw [if_neg h2] at h
        by_cases h4 : (currentPanel st).phase ≠ some (resolveTarget env phase state).1
        · rw [if_pos h4] at h
          injection h with h5
          rw [← h5]
          unfold setRightPanelCache recordsNonEmptyB
          rw [emit_byRoom]
          exact all_bInsert _ _ _ _ hne (by simp)
        · rw [if_neg h4] at h
          injection h with h5
          rw [← h5]
          exact hne
  · have hval' : isPhaseActionIsValid st (resolveTarget env phase state).1 = false := by
      simpa using hval
    simp only [hval', Bool.not_false, if_true] at h
    injection h with h2
    rw [← h2]
    exact hne

theorem runCalls_preserves_nonEmpty (env : StoreEnv) :
    ∀ (calls : List StoreCall) (st st' : RightPanelStoreState),
      noPop calls = true → runCalls env st calls = some st' →
      recordsNonEmptyB st = true → recordsNonEmptyB st' = true
  | [], st, st', _, hrun, hne => by
    injection hrun with h2
    rw [← h2]
    exact hne
  | c :: cs, st, st', hnp, hrun, hne => by
    unfold runCalls at hrun
    cases hc : runCall env st c with
    | none =>
      rw [hc] at hrun
      exact Option.noConfusion hrun
    | some st₁ =>
      rw [hc] at hrun
      have hne₁ : recordsNonEmptyB st₁ = true := by
        cases c with
        | set ph s ac r =>
          exact setRightPanel_preserves_nonEmpty env st st₁ ph s ac r hc hne
        | push ph s ac r =>
          have h2 : pushRightPanel env st ph s ac r = st₁ := by
            injection hc
          rw [← h2]
          exact pushRightPanel_preserves_nonEmpty env st ph s ac r hne
        | pop r => simp [noPop] at hnp
        | toggle r => exact togglePanel_preserves_nonEmpty st st₁ r hc hne
      have hnp' : noPop cs = true := by
        cases c with
        | set ph s ac r => exact hnp
        | push ph s ac r => exact hnp
        | pop r => simp [noPop] at hnp
        | toggle r => exact hnp
      exact runCalls_preserves_nonEmpty env cs st₁ st' hnp' hrun hne₁

/-- C2 (amended): every record ever present has a non-empty history as
long as no `popRightPanel` occurs: any pop-free sequence of mutator calls
that runs without throwing preserves the invariant "every record in
`byRoom` has a non-empty history" (record creation by the hard-reset
branch yields a singleton history).  `popRightPanel` itself violates the
claimed invariant, as the counterexample shows. -/
theorem c2_history_nonempty_without_pop (env : StoreEnv) (calls : List StoreCall)
    (st st' : RightPanelStoreState)
    (hnp : noPop calls = true)
    (hrun : runCalls env st calls = some st')
    (hne : recordsNonEmptyB st = true) :
    recordsNonEmptyB st' = true :=
  runCalls_preserves_nonEmpty env calls st st' hnp hrun hne

/-- C2 witness: a concrete pop-free run (hard reset creating `"roomA"`'s
record) ends in a state whose records all have non-empty histories. -/
theorem c2_history_nonempty_without_pop_witness :
    recordsNonEmptyB
      { viewedRoomId := "roomA", isViewingRoom := true,
        byRoom := [("roomA",
          { history := [{ phase := some .RoomSummary, state := some {} }],
            isOpen := true })],
        global := none, roomStoreToken := false, emits := 1,
        settingsWrites := 2 } = true :=
  c2_history_nonempty_without_pop env0 [StoreCall.set .RoomSummary none true none]
    stA
    { viewedRoomId := "roomA", isViewingRoom := true,
      byRoom := [("roomA",
        { history := [{ phase := some .RoomSummary, state := some {} }],
          isOpen := true })],
      global := none, roomStoreToken := false, emits := 1,
      settingsWrites := 2 }
    (by decide) (by decide) (by decide)
